import Mathlib

/-
Verification of the avallon-citations viewer core: the citation data model
and matcher (lib/types.ts), the snippet scoring algorithm (find_citation.py,
described in the pipeline docs), the viewer state machine (app page
component), and the highlight renderers (PdfViewer, TextViewer).
Numbers are modelled as ℤ (page numbers, offsets) and ℚ (bbox coordinates).
-/

/-- Normalized bounding box on a page, each coordinate in [0,1]
(lib/types.ts, PdfCitation.bbox). -/
structure Bbox where
  left : ℚ
  top : ℚ
  width : ℚ
  height : ℚ
deriving DecidableEq, Repr

/-- Citation: discriminated union keyed by document kind (lib/types.ts).
Optional md table-region fields are Options, mirroring the optional TS
fields. -/
inductive Citation where
  | pdf (sourceId : String) (page : ℤ) (bbox : Bbox)
  | text (sourceId : String) (startOffset endOffset : ℤ) (snippet : String)
  | md (sourceId : String) (snippet : String)
       (tableIndex startRow endRow startCol endCol : Option ℤ)
deriving DecidableEq, Repr

/-- ActiveCitation: same union, with the fields irrelevant to matching
dropped (lib/types.ts). -/
inductive ActiveCitation where
  | pdf (sourceId : String) (page : ℤ) (bbox : Bbox)
  | text (sourceId : String) (startOffset endOffset : ℤ)
  | md (sourceId : String) (snippet : String)
       (tableIndex startRow endRow startCol endCol : Option ℤ)
deriving DecidableEq, Repr

/-- citationMatches from lib/types.ts: compare a citation against the
active citation. Tags must agree; pdf compares sourceId, page and the
bbox top-left; text compares sourceId and both offsets; md compares the
table region when both sides carry a tableIndex and otherwise the
snippet. -/
def citationMatches : Citation → ActiveCitation → Bool
  | Citation.pdf s p b, ActiveCitation.pdf s2 p2 b2 =>
      decide (s = s2) && decide (p = p2) &&
      decide (b.left = b2.left) && decide (b.top = b2.top)
  | Citation.text s o1 o2 _, ActiveCitation.text s2 q1 q2 =>
      decide (s = s2) && decide (o1 = q1) && decide (o2 = q2)
  | Citation.md s sn ti sr er sc ec, ActiveCitation.md s2 sn2 ti2 sr2 er2 sc2 ec2 =>
      match ti, ti2 with
      | some t, some t2 =>
          decide (s = s2) && decide (t = t2) && decide (sr = sr2) &&
          decide (er = er2) && decide (sc = sc2) && decide (ec = ec2)
      | _, _ => decide (s = s2) && decide (sn = sn2)
  | _, _ => false

/-- Claim C1: citationMatches returns false when the type tags differ;
for pdf/pdf it is true iff sourceId, page, bbox.left and bbox.top agree
(width and height ignored); for text/text iff sourceId and both offsets
agree; for md/md with table regions on both sides iff sourceId,
tableIndex and the row/column span agree; otherwise for md/md iff
sourceId and snippet agree. -/
theorem citationMatches_characterization :
    (∀ s p b s2 p2 b2, citationMatches (Citation.pdf s p b) (ActiveCitation.pdf s2 p2 b2) = true ↔
        (s = s2 ∧ p = p2 ∧ b.left = b2.left ∧ b.top = b2.top)) ∧
    (∀ s o1 o2 sn s2 q1 q2, citationMatches (Citation.text s o1 o2 sn) (ActiveCitation.text s2 q1 q2) = true ↔
        (s = s2 ∧ o1 = q1 ∧ o2 = q2)) ∧
    (∀ s sn t sr er sc ec s2 sn2 t2 sr2 er2 sc2 ec2,
        citationMatches (Citation.md s sn (some t) sr er sc ec)
            (ActiveCitation.md s2 sn2 (some t2) sr2 er2 sc2 ec2) = true ↔
        (s = s2 ∧ t = t2 ∧ sr = sr2 ∧ er = er2 ∧ sc = sc2 ∧ ec = ec2)) ∧
    (∀ s sn sr er sc ec s2 sn2 t2 sr2 er2 sc2 ec2,
        citationMatches (Citation.md s sn none sr er sc ec)
            (ActiveCitation.md s2 sn2 t2 sr2 er2 sc2 ec2) = true ↔
        (s = s2 ∧ sn = sn2)) ∧
    (∀ s sn t sr er sc ec s2 sn2 sr2 er2 sc2 ec2,
        citationMatches (Citation.md s sn (some t) sr er sc ec)
            (ActiveCitation.md s2 sn2 none sr2 er2 sc2 ec2) = true ↔
        (s = s2 ∧ sn = sn2)) ∧
    (∀ s p b s2 q1 q2, citationMatches (Citation.pdf s p b) (ActiveCitation.text s2 q1 q2) = false) ∧
    (∀ s p b s2 sn2 t2 sr2 er2 sc2 ec2,
        citationMatches (Citation.pdf s p b) (ActiveCitation.md s2 sn2 t2 sr2 er2 sc2 ec2) = false) ∧
    (∀ s o1 o2 sn s2 p2 b2, citationMatches (Citation.text s o1 o2 sn) (ActiveCitation.pdf s2 p2 b2) = false) ∧
    (∀ s o1 o2 sn s2 sn2 t2 sr2 er2 sc2 ec2,
        citationMatches (Citation.text s o1 o2 sn) (ActiveCitation.md s2 sn2 t2 sr2 er2 sc2 ec2) = false) ∧
    (∀ s sn t sr er sc ec s2 p2 b2,
        citationMatches (Citation.md s sn t sr er sc ec) (ActiveCitation.pdf s2 p2 b2) = false) ∧
    (∀ s sn t sr er sc ec s2 q1 q2,
        citationMatches (Citation.md s sn t sr er sc ec) (ActiveCitation.text s2 q1 q2) = false) := by
  refine ⟨?_, ?_, ?_, ?_, ?_, ?_, ?_, ?_, ?_, ?_, ?_⟩ <;>
    intros <;> simp [citationMatches, and_assoc]

/-- Concrete instance of the C1 characterization: a pdf citation matches
the active pdf citation with the same sourceId, page and bbox top-left
even when the bbox sizes differ. -/
theorem citationMatches_characterization_witness :
    citationMatches (Citation.pdf "a" 1 ⟨0, 0, 1, 1⟩)
      (ActiveCitation.pdf "a" 1 ⟨0, 0, (1 : ℚ)/2, (1 : ℚ)/2⟩) = true :=
  (citationMatches_characterization.1 "a" 1 ⟨0, 0, 1, 1⟩ "a" 1
    ⟨0, 0, (1 : ℚ)/2, (1 : ℚ)/2⟩).mpr ⟨rfl, rfl, rfl, rfl⟩

/-- Untyped legacy citation record consumed by normalizeCitation
(lib/types.ts takes a Record of unknowns; every field may be absent). -/
structure RawCitation where
  type : Option String
  sourceId : Option String
  page : Option ℤ
  bbox : Option Bbox
  startOffset : Option ℤ
  endOffset : Option ℤ
  snippet : Option String
  tableIndex : Option ℤ
  startRow : Option ℤ
  endRow : Option ℤ
  startCol : Option ℤ
  endCol : Option ℤ
deriving DecidableEq, Repr

/-- normalizeCitation from lib/types.ts: records tagged "text" or "md"
pass through unchanged; everything else is treated as a legacy pdf shape
and the tagged pdf record is synthesized from the flat fields. -/
def normalizeCitation (raw : RawCitation) : RawCitation :=
  if raw.type = some "text" then raw
  else if raw.type = some "md" then raw
  else
    { type := some "pdf", sourceId := raw.sourceId, page := raw.page,
      bbox := raw.bbox, startOffset := none, endOffset := none,
      snippet := none, tableIndex := none, startRow := none,
      endRow := none, startCol := none, endCol := none }

/-- Untyped legacy source record consumed by normalizeSource
(lib/types.ts). -/
structure RawSource where
  id : Option String
  name : Option String
  file : Option String
  type : Option String
  pageCount : Option ℤ
  mdFile : Option String
deriving DecidableEq, Repr

/-- normalizeSource from lib/types.ts: spread the raw record and default
a missing type to "pdf". -/
def normalizeSource (raw : RawSource) : RawSource :=
  { raw with type := some (raw.type.getD "pdf") }

/-- Claim C5: normalizeCitation passes records tagged "text" or "md"
through unchanged and otherwise synthesizes the tagged pdf record from
the flat sourceId/page/bbox fields; being a total Lean function over
arbitrary raw records (every field optional), it is defined for all
malformed input and never fails. -/
theorem normalizeCitation_spec (raw : RawCitation) :
    normalizeCitation raw =
      if raw.type = some "text" ∨ raw.type = some "md" then raw
      else
        { type := some "pdf", sourceId := raw.sourceId, page := raw.page,
          bbox := raw.bbox, startOffset := none, endOffset := none,
          snippet := none, tableIndex := none, startRow := none,
          endRow := none, startCol := none, endCol := none } := by
  unfold normalizeCitation
  by_cases h1 : raw.type = some "text" <;> by_cases h2 : raw.type = some "md" <;>
    simp [h1, h2]

/-- Claim C6: normalization is idempotent for citations and for
sources. -/
theorem normalize_idempotent :
    (∀ raw : RawCitation, normalizeCitation (normalizeCitation raw) = normalizeCitation raw) ∧
    (∀ raw : RawSource, normalizeSource (normalizeSource raw) = normalizeSource raw) := by
  constructor
  · intro raw
    unfold normalizeCitation
    by_cases h1 : raw.type = some "text" <;> by_cases h2 : raw.type = some "md" <;>
      simp [h1, h2]
  · intro raw
    unfold normalizeSource
    cases h : raw.type <;> simp [h, Option.getD]

/-- The sourceId carried by every Citation variant (lib/types.ts: all
three variants share the sourceId field). -/
def Citation.sourceId : Citation → String
  | Citation.pdf s _ _ => s
  | Citation.text s _ _ _ => s
  | Citation.md s _ _ _ _ _ _ => s

/-- The sourceId carried by every ActiveCitation variant. -/
def ActiveCitation.sourceId : ActiveCitation → String
  | ActiveCitation.pdf s _ _ => s
  | ActiveCitation.text s _ _ => s
  | ActiveCitation.md s _ _ _ _ _ _ => s

/-- The viewer page state (the Home component's useState trio:
activeSourceId, currentPage, activeCitation). -/
structure ViewerState where
  activeSourceId : String
  currentPage : ℤ
  activeCitation : Option ActiveCitation
deriving DecidableEq, Repr

/-- The ActiveCitation the click handler derives from a clicked Citation
(the object literals built inside handleCitationClick: pdf keeps page and
bbox, text keeps the offsets and drops the snippet, md keeps snippet and
table region). -/
def toActiveCitation : Citation → ActiveCitation
  | Citation.pdf s p b => ActiveCitation.pdf s p b
  | Citation.text s o1 o2 _ => ActiveCitation.text s o1 o2
  | Citation.md s sn ti sr er sc ec => ActiveCitation.md s sn ti sr er sc ec

/-- handleSourceChange from the Home component: set the source, reset the
page to 1, clear the active citation. -/
def handleSourceChange (st : ViewerState) (sourceId : String) : ViewerState :=
  { st with activeSourceId := sourceId, currentPage := 1, activeCitation := none }

/-- handlePageChange from the Home component: set the page and clear the
active citation. -/
def handlePageChange (st : ViewerState) (page : ℤ) : ViewerState :=
  { st with currentPage := page, activeCitation := none }

/-- handleCitationClick from the Home component: switch the displayed
source if it differs from the citation's, then set the page (the
citation's page for pdf, 1 for text and md) and the derived active
citation. -/
def handleCitationClick (st : ViewerState) (c : Citation) : ViewerState :=
  let st1 :=
    if c.sourceId ≠ st.activeSourceId then { st with activeSourceId := c.sourceId } else st
  match c with
  | Citation.pdf s p b =>
      { st1 with currentPage := p, activeCitation := some (ActiveCitation.pdf s p b) }
  | Citation.text s o1 o2 _ =>
      { st1 with currentPage := 1, activeCitation := some (ActiveCitation.text s o1 o2) }
  | Citation.md s sn ti sr er sc ec =>
      { st1 with currentPage := 1, activeCitation := some (ActiveCitation.md s sn ti sr er sc ec) }

/-- Claim C3: after handleCitationClick the displayed source equals the
citation's sourceId, the active citation is the one derived from the
clicked citation, and the page is the citation's page for pdf citations
and 1 for text and md citations, for every prior state. -/
theorem handleCitationClick_spec (st : ViewerState) (c : Citation) :
    (handleCitationClick st c).activeSourceId = c.sourceId ∧
    (handleCitationClick st c).activeCitation = some (toActiveCitation c) ∧
    (handleCitationClick st c).currentPage =
      (match c with
       | Citation.pdf _ p _ => p
       | Citation.text _ _ _ _ => 1
       | Citation.md _ _ _ _ _ _ _ => 1) := by
  cases c <;>
    simp only [handleCitationClick, toActiveCitation, Citation.sourceId] <;>
    split <;> simp_all [Citation.sourceId]

/-- Claim C4: a manual page change clears the active citation and sets
the page; a manual source switch clears the active citation, sets the
source and resets the page to 1, for every prior state. -/
theorem manualNavigation_clears_active (st : ViewerState) (p : ℤ) (sourceId : String) :
    (handlePageChange st p).activeCitation = none ∧
    (handlePageChange st p).currentPage = p ∧
    (handleSourceChange st sourceId).activeCitation = none ∧
    (handleSourceChange st sourceId).activeSourceId = sourceId ∧
    (handleSourceChange st sourceId).currentPage = 1 := by
  simp [handlePageChange, handleSourceChange]

/-- User-interface events that mutate the viewer state after the data
load (the three useCallback handlers of the Home component). -/
inductive ViewerEvent where
  | sourceChange (sourceId : String)
  | pageChange (page : ℤ)
  | citationClick (c : Citation)
deriving DecidableEq, Repr

/-- One step of the viewer state machine. -/
def viewerStep (st : ViewerState) : ViewerEvent → ViewerState
  | ViewerEvent.sourceChange sourceId => handleSourceChange st sourceId
  | ViewerEvent.pageChange p => handlePageChange st p
  | ViewerEvent.citationClick c => handleCitationClick st c

/-- The useState initial values of the Home component: empty source id,
page 1, no active citation. -/
def viewerInit : ViewerState :=
  { activeSourceId := "", currentPage := 1, activeCitation := none }

/-- The data-load effect of the Home component: if the loaded source list
is nonempty, select the first source; the active citation is untouched.
The effect runs once on mount, before the interactive panels render
(the component returns the spinner until data is set). -/
def loadData (st : ViewerState) (sourceIds : List String) : ViewerState :=
  match sourceIds with
  | [] => st
  | s0 :: _ => { st with activeSourceId := s0 }

/-- A viewer run: the initial state, the one-time data load, then any
sequence of user-interface events. -/
def runViewer (sourceIds : List String) (events : List ViewerEvent) : ViewerState :=
  events.foldl viewerStep (loadData viewerInit sourceIds)

/-- The active citation, when present, names the displayed source. -/
def sourceConsistent (st : ViewerState) : Prop :=
  ∀ a, st.activeCitation = some a → a.sourceId = st.activeSourceId

theorem viewerStep_preserves_sourceConsistent (st : ViewerState) (e : ViewerEvent)
    (_h : sourceConsistent st) : sourceConsistent (viewerStep st e) := by
  cases e with
  | sourceChange sourceId =>
      intro a ha
      simp [viewerStep, handleSourceChange] at ha
  | pageChange p =>
      intro a ha
      simp [viewerStep, handlePageChange] at ha
  | citationClick c =>
      intro a ha
      have hc := handleCitationClick_spec st c
      have : a = toActiveCitation c := by
        have := hc.2.1
        simp [viewerStep] at ha
        rw [this] at ha
        exact (Option.some_inj.mp ha).symm
      subst this
      rw [show (viewerStep st (ViewerEvent.citationClick c)).activeSourceId = c.sourceId from hc.1]
      cases c <;> simp [toActiveCitation, Citation.sourceId, ActiveCitation.sourceId]

theorem foldl_viewerStep_sourceConsistent (events : List ViewerEvent) :
    ∀ st : ViewerState, sourceConsistent st → sourceConsistent (events.foldl viewerStep st) := by
  induction events with
  | nil => intro st h; exact h
  | cons e rest ih =>
      intro st h
      exact ih (viewerStep st e) (viewerStep_preserves_sourceConsistent st e h)

/-- Claim C10: in every state reachable from the initial state by the
data load and any sequence of source switches, page changes and citation
clicks, a non-null active citation carries the sourceId of the currently
displayed source. -/
theorem runViewer_sourceConsistent (sourceIds : List String) (events : List ViewerEvent)
    (a : ActiveCitation) (ha : (runViewer sourceIds events).activeCitation = some a) :
    a.sourceId = (runViewer sourceIds events).activeSourceId := by
  have hinit : sourceConsistent (loadData viewerInit sourceIds) := by
    intro x hx
    cases sourceIds <;> simp [loadData, viewerInit] at hx
  exact foldl_viewerStep_sourceConsistent events (loadData viewerInit sourceIds) hinit a ha

/-- Concrete instance of C10: after loading two sources and clicking a
pdf citation for the second source, the active citation's sourceId is
the displayed source. -/
theorem runViewer_sourceConsistent_witness :
    (runViewer ["s1", "s2"] [ViewerEvent.citationClick (Citation.pdf "s2" 3 ⟨0, 0, 1, 1⟩)]).activeCitation =
        some (ActiveCitation.pdf "s2" 3 ⟨0, 0, 1, 1⟩) ∧
    (ActiveCitation.pdf "s2" 3 ⟨0, 0, 1, 1⟩).sourceId =
      (runViewer ["s1", "s2"] [ViewerEvent.citationClick (Citation.pdf "s2" 3 ⟨0, 0, 1, 1⟩)]).activeSourceId :=
  ⟨by decide, runViewer_sourceConsistent ["s1", "s2"]
      [ViewerEvent.citationClick (Citation.pdf "s2" 3 ⟨0, 0, 1, 1⟩)]
      (ActiveCitation.pdf "s2" 3 ⟨0, 0, 1, 1⟩) (by decide)⟩

/-- The three slices the flat-text renderer produces (TextViewer in
SourceTabs.tsx: before, highlighted, after). -/
structure TextSlices where
  before : List Char
  highlighted : List Char
  after : List Char
deriving DecidableEq, Repr

/-- The TextViewer slicing (SourceTabs.tsx, raw text/CSV mode): for an
active text citation, start is startOffset clamped to [0, length], stop
is endOffset clamped to [start, length], and the content is sliced at
start and stop; otherwise the whole content is the before slice and the
highlight is empty. -/
def textViewerSlices (content : List Char) (active : Option ActiveCitation) : TextSlices :=
  match active with
  | some (ActiveCitation.text _ so eo) =>
      let start : ℤ := max 0 (min so (content.length : ℤ))
      let stop : ℤ := max start (min eo (content.length : ℤ))
      { before := content.take start.toNat,
        highlighted := (content.drop start.toNat).take (stop - start).toNat,
        after := content.drop stop.toNat }
  | _ => { before := content, highlighted := [], after := [] }

theorem textViewer_toNat_le (content : List Char) (so eo : ℤ) :
    (max 0 (min so (content.length : ℤ))).toNat ≤
      (max (max 0 (min so (content.length : ℤ))) (min eo (content.length : ℤ))).toNat := by
  apply Int.toNat_le_toNat
  exact le_max_left _ _

/-- Claim C7 (amended): for every content and every active text citation
the three slices concatenate back to the content, the start index is
startOffset clamped to [0, length] and the stop index is endOffset
clamped to [start, length]; offsets at or beyond the content length
produce an empty highlighted slice rather than an error. -/
theorem textViewerSlices_decomposition (content : List Char) (sid : String) (so eo : ℤ) :
    ((textViewerSlices content (some (ActiveCitation.text sid so eo))).before ++
      (textViewerSlices content (some (ActiveCitation.text sid so eo))).highlighted ++
      (textViewerSlices content (some (ActiveCitation.text sid so eo))).after = content) ∧
    ((textViewerSlices content (some (ActiveCitation.text sid so eo))).before.length =
      (max 0 (min so (content.length : ℤ))).toNat) ∧
    ((textViewerSlices content (some (ActiveCitation.text sid so eo))).highlighted.length =
      ((max (max 0 (min so (content.length : ℤ))) (min eo (content.length : ℤ))) -
        max 0 (min so (content.length : ℤ))).toNat) ∧
    ((content.length : ℤ) ≤ so →
      (textViewerSlices content (some (ActiveCitation.text sid so eo))).highlighted = []) := by
  simp only [textViewerSlices]
  set start : ℤ := max 0 (min so (content.length : ℤ)) with hstart
  set stop : ℤ := max start (min eo (content.length : ℤ)) with hstop
  have hstart_nonneg : 0 ≤ start := le_max_left _ _
  have hstart_le_len : start ≤ (content.length : ℤ) := by
    rcases le_total 0 (min so (content.length : ℤ)) with h | h
    · rw [hstart, max_eq_right h]; exact min_le_right _ _
    · rw [hstart, max_eq_left h]; exact_mod_cast Nat.zero_le _
  have hstop_le_len : stop ≤ (content.length : ℤ) := by
    rw [hstop]
    rcases le_total start (min eo (content.length : ℤ)) with h | h
    · rw [max_eq_right h]; exact min_le_right _ _
    · rw [max_eq_left h]; exact hstart_le_len
  have hstart_le_stop : start ≤ stop := le_max_left _ _
  have hkey : start.toNat + (stop - start).toNat = stop.toNat := by
    omega
  refine ⟨?_, ?_, ?_, ?_⟩
  · have h3 : stop.toNat = start.toNat + (stop - start).toNat := by omega
    have h4 := List.drop_take_append_drop content start.toNat (stop - start).toNat
    have h5 := List.take_append_drop start.toNat content
    rw [h3, List.append_assoc, h4, h5]
  · simp [List.length_take]
    omega
  · simp [List.length_take, List.length_drop]
    omega
  · intro hso
    have h1 : min so (content.length : ℤ) = (content.length : ℤ) := min_eq_right hso
    have h2 : start = (content.length : ℤ) := by
      rw [hstart, h1, max_eq_right (by exact_mod_cast Nat.zero_le _)]
    simp [List.drop_eq_nil_of_le, h2]

/-- Concrete instance of the amended C7: a citation whose startOffset is
beyond the 3-character document produces an empty highlighted slice. -/
theorem textViewerSlices_decomposition_witness :
    (textViewerSlices ("abc".toList) (some (ActiveCitation.text "s" 5 9))).highlighted = [] :=
  (textViewerSlices_decomposition ("abc".toList) "s" 5 9).2.2.2 (by decide)

/-- Counterexample to C7 as stated: at the spec's own scenario — a text
citation with startOffset 10 and endOffset 25 against a 12-character
document — the highlighted slice is the two trailing characters, not
empty. -/
theorem textViewerSlices_out_of_range_counterexample :
    (textViewerSlices ("abcdefghijkl".toList) (some (ActiveCitation.text "s" 10 25))).highlighted =
        ['k', 'l'] ∧
    ¬ (textViewerSlices ("abcdefghijkl".toList)
        (some (ActiveCitation.text "s" 10 25))).highlighted = [] := by
  constructor <;> decide

/-- The rendered page's pixel dimensions (the renderedDimensions state of
PdfViewer). -/
structure RenderedDimensions where
  width : ℚ
  height : ℚ
deriving DecidableEq, Repr

/-- The rectangle drawn on the overlay canvas (x, y, w, h passed to
fillRect and strokeRect). -/
structure OverlayRect where
  x : ℚ
  y : ℚ
  w : ℚ
  h : ℚ
deriving DecidableEq, Repr

/-- What a drawOverlay run leaves on the overlay canvas. -/
inductive OverlayOutcome where
  | untouched
  | cleared
  | drawn (r : OverlayRect)
deriving DecidableEq, Repr

/-- drawOverlay from PdfViewer (both variants have the same draw
routine): if no dimensions have been rendered yet the routine returns
before touching the canvas; otherwise it clears the canvas, and when an
active citation is present whose page equals the displayed page it
paints the bbox scaled to the rendered dimensions with the 4/2 pixel
padding margin. A non-pdf active citation has no page field, so the
page guard fails and the canvas stays cleared. -/
def drawOverlay (dims : Option RenderedDimensions) (active : Option ActiveCitation)
    (page : ℤ) : OverlayOutcome :=
  match dims with
  | none => OverlayOutcome.untouched
  | some d =>
      match active with
      | some (ActiveCitation.pdf _ p bbox) =>
          if p = page then
            OverlayOutcome.drawn
              { x := bbox.left * d.width - 4, y := bbox.top * d.height - 2,
                w := bbox.width * d.width + 8, h := bbox.height * d.height + 4 }
          else OverlayOutcome.cleared
      | _ => OverlayOutcome.cleared

/-- Claim C9: with a rendered page, drawOverlay paints a rectangle iff an
active pdf citation is present whose page equals the displayed page; in
every other case the overlay ends up cleared with nothing drawn. -/
theorem drawOverlay_spec (d : RenderedDimensions) (active : Option ActiveCitation) (page : ℤ) :
    ((∃ r, drawOverlay (some d) active page = OverlayOutcome.drawn r) ↔
      (∃ s p b, active = some (ActiveCitation.pdf s p b) ∧ p = page)) ∧
    (drawOverlay (some d) active page = OverlayOutcome.cleared ∨
      ∃ r, drawOverlay (some d) active page = OverlayOutcome.drawn r) := by
  constructor
  · constructor
    · intro ⟨r, hr⟩
      match active with
      | none => simp [drawOverlay] at hr
      | some (ActiveCitation.pdf s p b) =>
          refine ⟨s, p, b, rfl, ?_⟩
          by_contra hne
          simp [drawOverlay, hne] at hr
      | some (ActiveCitation.text s o1 o2) => simp [drawOverlay] at hr
      | some (ActiveCitation.md s sn ti sr er sc ec) => simp [drawOverlay] at hr
    · intro ⟨s, p, b, hact, hp⟩
      subst hact
      subst hp
      exact ⟨{ x := b.left * d.width - 4, y := b.top * d.height - 2,
               w := b.width * d.width + 8, h := b.height * d.height + 4 },
             by simp [drawOverlay]⟩
  · match active with
    | none => exact Or.inl rfl
    | some (ActiveCitation.pdf s p b) =>
        by_cases hp : p = page
        · exact Or.inr ⟨{ x := b.left * d.width - 4, y := b.top * d.height - 2,
                          w := b.width * d.width + 8, h := b.height * d.height + 4 },
                        by simp [drawOverlay, hp]⟩
        · exact Or.inl (by simp [drawOverlay, hp])
    | some (ActiveCitation.text s o1 o2) => exact Or.inl rfl
    | some (ActiveCitation.md s sn ti sr er sc ec) => exact Or.inl rfl

/-- Concrete instance of C9: an active pdf citation on the displayed page
produces a drawn rectangle. -/
theorem drawOverlay_spec_witness :
    ∃ r, drawOverlay (some ⟨600, 800⟩) (some (ActiveCitation.pdf "s" 2 ⟨0, 0, 1, 1⟩)) 2 =
      OverlayOutcome.drawn r :=
  (drawOverlay_spec ⟨600, 800⟩ (some (ActiveCitation.pdf "s" 2 ⟨0, 0, 1, 1⟩)) 2).1.mpr
    ⟨"s", 2, ⟨0, 0, 1, 1⟩, rfl, rfl⟩

/-- The fade dwell delay in milliseconds of the current PdfViewer fade
effect (the setTimeout delay, with the comment that the highlight stays
visible for 15 seconds before fading). -/
def pdfViewerFadeDelayMs : ℕ := 15000

/-- The fade dwell delay in milliseconds of the legacy PdfViewer.tsx
fade effect (its setTimeout delay). -/
def legacyPdfViewerFadeDelayMs : ℕ := 2500

/-- The fade dwell delay in milliseconds of the TextViewer fade effects
in SourceTabs.tsx (both the text/csv and the md setTimeout delays). -/
def textViewerFadeDelayMs : ℕ := 15000

/-- One run of a PdfViewer fade effect when its dependencies change: the
React cleanup clears the previously pending timer (the prior pending
state is discarded), and a new timer with the full dwell delay is
scheduled only when an active pdf citation for the displayed page is
present. The result is the pending fade delay, if any. -/
def fadeEffectRun (delay : ℕ) (_pending : Option ℕ) (active : Option ActiveCitation)
    (page : ℤ) : Option ℕ :=
  match active with
  | some (ActiveCitation.pdf _ p _) => if p = page then some delay else none
  | _ => none

/-- Claim C8 (amended): the current PdfViewer and the TextViewer fade
effects use a 15000 ms dwell while the legacy PdfViewer fade effect uses
2500 ms; in each case, whenever the effect re-runs, the previously
pending fade timer is cancelled regardless of its state, a new
activation on the displayed page restarts a timer with the full dwell,
and clearing the active citation leaves no pending timer. -/
theorem fadeContract_spec :
    pdfViewerFadeDelayMs = 15000 ∧
    textViewerFadeDelayMs = 15000 ∧
    legacyPdfViewerFadeDelayMs = 2500 ∧
    (∀ delay pending pending2 active page,
      fadeEffectRun delay pending active page = fadeEffectRun delay pending2 active page) ∧
    (∀ delay pending s p b,
      fadeEffectRun delay pending (some (ActiveCitation.pdf s p b)) p = some delay) ∧
    (∀ delay pending page, fadeEffectRun delay pending none page = none) := by
  refine ⟨rfl, rfl, rfl, ?_, ?_, ?_⟩
  · intro delay pending pending2 active page
    rfl
  · intro delay pending s p b
    simp [fadeEffectRun]
  · intro delay pending page
    rfl

/-- Counterexample to C8 as stated: the fade timer delay is not 15000 ms
in every highlight renderer — the legacy PdfViewer fade effect schedules
its fade after 2500 ms. -/
theorem fadeDelay_counterexample :
    ¬ (pdfViewerFadeDelayMs = 15000 ∧ legacyPdfViewerFadeDelayMs = 15000 ∧
        textViewerFadeDelayMs = 15000) := by
  decide

/-- Whether the first list is an initial segment of the second. -/
def isPrefOf : List Char → List Char → Bool
  | [], _ => true
  | _ :: _, [] => false
  | c :: cs, d :: ds => decide (c = d) && isPrefOf cs ds

/-- Whether the first list occurs contiguously inside the second. -/
def occursIn (s : List Char) : List Char → Bool
  | [] => s.isEmpty
  | c :: bs => isPrefOf s (c :: bs) || occursIn s bs

/-- Modelled from the spec: the strip_html preprocessing of
find_citation.py (the script itself is not under src/): characters
between an opening angle bracket and the matching closing one are
removed, so tabular markup does not affect text similarity. -/
def stripMarkup (inTag : Bool) : List Char → List Char
  | [] => []
  | c :: rest =>
      if inTag then
        if c = '>' then stripMarkup false rest else stripMarkup true rest
      else
        if c = '<' then stripMarkup true rest else c :: stripMarkup false rest

/-- Longest common subsequence length of two character lists. -/
def lcsLen : List Char → List Char → ℕ
  | [], _ => 0
  | _ :: _, [] => 0
  | a :: as, b :: bs =>
      if a = b then lcsLen as bs + 1
      else max (lcsLen (a :: as) bs) (lcsLen as (b :: bs))

/-- Modelled from the spec: the Tier-2 similarity of find_citation.py
(SequenceMatcher-style ratio combined with the longest common
subsequence length), as a rational in [0, 1]. -/
def seqSimilarity (s b : List Char) : ℚ :=
  if s.length + b.length = 0 then 1
  else (2 * lcsLen s b : ℚ) / ((s.length : ℚ) + (b.length : ℚ))

/-- Modelled from the spec: the Tier-2 fuzzy score of find_citation.py,
the similarity capped at 0.49. -/
def fuzzyScore (s b : List Char) : ℚ :=
  min (seqSimilarity s b) (49 / 100)

/-- Modelled from the spec: the two-tier block score of
find_citation.py. Both sides are stripped of markup; a snippet occurring
inside the block scores 0.5 + (snippet length / block length) * 0.5, a
block occurring inside the snippet scores 0.5 + (block length / snippet
length) * 0.4, and otherwise the capped fuzzy score applies. -/
def scoreSnippetBlock (snippet block : List Char) : ℚ :=
  let s := stripMarkup false snippet
  let b := stripMarkup false block
  if occursIn s b then 1 / 2 + ((s.length : ℚ) / (b.length : ℚ)) * (1 / 2)
  else if occursIn b s then 1 / 2 + ((b.length : ℚ) / (s.length : ℚ)) * (2 / 5)
  else fuzzyScore s b

/-- Claim C2: every Tier-2 fuzzy score is at most 0.49; whenever the
stripped snippet occurs verbatim inside a block's stripped text, the
block's score is at least 0.5; hence the score of a block matched only
by the fuzzy tier is strictly below the score of any block containing
the snippet verbatim. -/
theorem twoTier_scoring_spec (snippet block other : List Char) :
    (fuzzyScore (stripMarkup false snippet) (stripMarkup false other) ≤ 49 / 100) ∧
    (occursIn (stripMarkup false snippet) (stripMarkup false block) = true →
      1 / 2 ≤ scoreSnippetBlock snippet block) ∧
    (occursIn (stripMarkup false snippet) (stripMarkup false block) = true →
      occursIn (stripMarkup false snippet) (stripMarkup false other) = false →
      occursIn (stripMarkup false other) (stripMarkup false snippet) = false →
      scoreSnippetBlock snippet other < scoreSnippetBlock snippet block) := by
  have hsub : ∀ hocc : occursIn (stripMarkup false snippet) (stripMarkup false block) = true,
      1 / 2 ≤ scoreSnippetBlock snippet block := by
    intro hocc
    have hnn : (0 : ℚ) ≤ ((stripMarkup false snippet).length : ℚ) /
        ((stripMarkup false block).length : ℚ) * (1 / 2) := by
      apply mul_nonneg
      · exact div_nonneg (by exact_mod_cast Nat.zero_le _) (by exact_mod_cast Nat.zero_le _)
      · norm_num
    simp only [scoreSnippetBlock, hocc, if_true]
    linarith
  refine ⟨min_le_right _ _, hsub, ?_⟩
  intro hocc hno1 hno2
  have hother : scoreSnippetBlock snippet other =
      fuzzyScore (stripMarkup false snippet) (stripMarkup false other) := by
    simp [scoreSnippetBlock, hno1, hno2]
  have h1 : scoreSnippetBlock snippet other ≤ 49 / 100 := by
    rw [hother]; exact min_le_right _ _
  have h2 := hsub hocc
  linarith

/-- Concrete instance of C2: the snippet "ab" occurs in the block "zabq"
and scores at least 0.5, strictly above the fuzzy-only score of the
unrelated block "xy". -/
theorem twoTier_scoring_spec_witness :
    (fuzzyScore (stripMarkup false ("ab".toList)) (stripMarkup false ("xy".toList)) ≤ 49 / 100) ∧
    (1 / 2 ≤ scoreSnippetBlock ("ab".toList) ("zabq".toList)) ∧
    (scoreSnippetBlock ("ab".toList) ("xy".toList) <
      scoreSnippetBlock ("ab".toList) ("zabq".toList)) :=
  ⟨(twoTier_scoring_spec ("ab".toList) ("zabq".toList) ("xy".toList)).1,
   (twoTier_scoring_spec ("ab".toList) ("zabq".toList) ("xy".toList)).2.1 (by decide),
   (twoTier_scoring_spec ("ab".toList) ("zabq".toList) ("xy".toList)).2.2
     (by decide) (by decide) (by decide)⟩
